import Mathlib

/-!
Verification of the gollum WebSocket bridge (main.go).

The program is a Go server that accepts WebSocket connections, reads JSON
frames from the client, and for each frame of type "message" calls the local
Ollama generation endpoint in streaming mode, forwarding decoded fragments
back to the client as response_start / response_chunk / response_end frames.

Shallow embedding choices, mirroring main.go:

* The backend response body read through json.Decoder is modelled as the
  sequence of top-level decode outcomes it yields: each list element is
  either a successfully decoded OllamaStreamResponse object (Except.ok) or a
  decode error at that point in the stream (Except.error).  decoder.More()
  is true exactly when the list is nonempty.
* http.Post is modelled by its result: either a transport error
  (Except.error) or an HttpResponse carrying the status code and the body
  stream.  Note main.go never inspects the status code; the field is kept in
  the model precisely so that theorems can quantify over it.
* The per-fragment callback passed to queryOllamaStreaming writes frames to
  the connection; since execution is strictly sequential, its effect is
  captured by the ordered list of (chunk, done) invocations, which the
  session then maps to outbound frames exactly as the callback body does.
* defer resp.Body.Close() runs on every return path after a successful open;
  the model records this in the bodyClosed field, set on the branch where
  the response was obtained.
* ReadJSON on the client connection either yields a decoded JSON object
  (modelled by the optional values found at keys "type" and "content") or a
  read/decode error that breaks the loop.
-/

set_option autoImplicit false

namespace Gollum

/-- OllamaRequest from main.go: the JSON body sent to /api/generate. -/
structure OllamaRequest where
  model : String
  prompt : String
  stream : Bool
deriving DecidableEq, Repr

/-- OllamaStreamResponse from main.go: one streamed JSON object emitted by
Ollama, with the next text fragment and the done flag. -/
structure OllamaStreamResponse where
  response : String
  done : Bool
deriving DecidableEq, Repr

/-- The backend response body, as the sequence of decode outcomes produced by
json.NewDecoder(resp.Body): one entry per top-level object boundary, an
Except.error marking a malformed object at that point. -/
abbrev BodyStream := List (Except String OllamaStreamResponse)

/-- The result of http.Post as far as main.go observes it: status code and
body stream.  main.go never reads the status code. -/
structure HttpResponse where
  statusCode : Nat
  body : BodyStream
deriving Repr

/-- Outcome of http.Post: transport-level failure (connection refused, DNS
failure, ...) or a response. -/
abbrev PostResult := Except String HttpResponse

/-- The fixed model identifier hardcoded in queryOllamaStreaming. -/
def modelName : String := "llama2"

/-- The decode-and-forward loop of queryOllamaStreaming:
for decoder.More() { Decode -> on error return err; callback(response, done);
if done break; sleep }.  Returns the ordered callback invocations, the
returned error (none = nil), and the unread remainder of the body stream. -/
def decodeLoop : BodyStream → List (String × Bool) × Option String × BodyStream
  | [] => ([], none, [])
  | Except.error e :: rest => ([], some e, rest)
  | Except.ok sr :: rest =>
    if sr.done then
      ([(sr.response, sr.done)], none, rest)
    else
      let r := decodeLoop rest
      ((sr.response, sr.done) :: r.1, r.2.1, r.2.2)

/-- Observable outcome of one queryOllamaStreaming call. -/
structure StreamOutcome where
  request : OllamaRequest
  delivered : List (String × Bool)
  err : Option String
  bodyClosed : Bool
  bodyRest : BodyStream
deriving Repr

/-- queryOllamaStreaming from main.go.  Builds the request (fixed model,
given prompt, stream=true), performs the post; on transport failure returns
that error with no callback invocation and no body to close; on success
closes the body (defer) and runs the decode loop. -/
def queryOllamaStreaming (prompt : String) (post : PostResult) : StreamOutcome :=
  let reqBody : OllamaRequest := { model := modelName, prompt := prompt, stream := true }
  match post with
  | Except.error e =>
      { request := reqBody, delivered := [], err := some e,
        bodyClosed := false, bodyRest := [] }
  | Except.ok resp =>
      let r := decodeLoop resp.body
      { request := reqBody, delivered := r.1, err := r.2.1,
        bodyClosed := true, bodyRest := r.2.2 }

/-- Outbound WebSocket frames written by handleWebSocket. -/
inductive OutFrame where
  | response_start : OutFrame
  | response_chunk : String → OutFrame
  | response_end : OutFrame
deriving DecidableEq, Repr

/-- Body of the callback handleWebSocket passes to queryOllamaStreaming:
if !done write a response_chunk with the text, else write response_end. -/
def frameOfCallback (chunk : String) (done : Bool) : OutFrame :=
  if !done then OutFrame.response_chunk chunk else OutFrame.response_end

/-- The fixed user-facing error text written when queryOllamaStreaming
returns a non-nil error. -/
def errorMessage : String := "Sorry, I encountered an error processing your request."

/-- Outbound frames produced for one prompt by the "message" case of
handleWebSocket: response_start, then one frame per callback invocation,
then - only if the call returned an error - the fixed error chunk and a
response_end. -/
def handlePrompt (prompt : String) (post : PostResult) : List OutFrame :=
  let q := queryOllamaStreaming prompt post
  OutFrame.response_start ::
    q.delivered.map (fun cd => frameOfCallback cd.1 cd.2) ++
      (match q.err with
       | some _ => [OutFrame.response_chunk errorMessage, OutFrame.response_end]
       | none => [])

/-- Minimal JSON value model for the inbound map decoded by ReadJSON: enough
to distinguish the string "message" from every other value. -/
inductive JVal where
  | str : String → JVal
  | num : Int → JVal
  | boolean : Bool → JVal
  | null : JVal
deriving DecidableEq, Repr

/-- One iteration input of the read loop: either ReadJSON succeeded and the
decoded object has the given values at keys "type" and "content" (none =
key absent), or ReadJSON failed and the loop breaks. -/
inductive InEvent where
  | frame : Option JVal → Option JVal → InEvent
  | readFailure : String → InEvent
deriving DecidableEq, Repr

/-- userMessage, _ := msg["content"].(string) - the string value of
"content", or the empty string when absent or not a string. -/
def extractContent : Option JVal → String
  | some (JVal.str s) => s
  | _ => ""

/-- The read loop of handleWebSocket over a finite inbound event sequence.
backend is the environment oracle giving the result of the k-th http.Post
on this connection.  Returns the outbound frames in write order and the
prompts passed to queryOllamaStreaming in call order. -/
def sessionLoop (backend : Nat → PostResult) :
    List InEvent → Nat → List OutFrame × List String
  | [], _ => ([], [])
  | InEvent.readFailure _ :: _, _ => ([], [])
  | InEvent.frame t c :: rest, k =>
    if t = some (JVal.str "message") then
      let prompt := extractContent c
      let r := sessionLoop backend rest (k + 1)
      (handlePrompt prompt (backend k) ++ r.1, prompt :: r.2)
    else
      sessionLoop backend rest k

/-- Result of one whole handleWebSocket invocation after a successful
upgrade: frames written, prompts issued, and whether the client connection
was closed (defer conn.Close() runs on every exit of the read loop). -/
structure SessionRun where
  out : List OutFrame
  prompts : List String
  connClosed : Bool
deriving DecidableEq, Repr

/-- handleWebSocket from main.go, after a successful upgrade: run the read
loop, then close the connection. -/
def handleWebSocket (backend : Nat → PostResult) (evs : List InEvent) : SessionRun :=
  let r := sessionLoop backend evs 0
  { out := r.1, prompts := r.2, connClosed := true }

/-- Spec-side shape predicate: the tail of a bracketed sequence, i.e. zero
or more response_chunk frames followed by exactly one response_end. -/
def isBracketedTail : List OutFrame → Bool
  | [OutFrame.response_end] => true
  | OutFrame.response_chunk _ :: rest => isBracketedTail rest
  | _ => false

/-- Spec-side shape predicate for the bracketing invariant: exactly one
response_start, then zero or more response_chunk, then exactly one
response_end. -/
def isBracketed : List OutFrame → Bool
  | OutFrame.response_start :: rest => isBracketedTail rest
  | _ => false

/-- A body stream terminates when it reaches a done=true object or a decode
error before being exhausted. -/
def bodyTerminates : BodyStream → Bool
  | [] => false
  | Except.error _ :: _ => true
  | Except.ok sr :: rest => sr.done || bodyTerminates rest

/-- A body stream is exhausted without done: every object decodes and none
carries done=true. -/
def exhaustsWithoutDone : BodyStream → Bool
  | [] => true
  | Except.error _ :: _ => false
  | Except.ok sr :: rest => !sr.done && exhaustsWithoutDone rest

/-- The open-failure class exactly as the spec words it: transport error or
non-success HTTP status. -/
def openFailurePerSpec (post : PostResult) : Prop :=
  (∃ e, post = Except.error e) ∨ (∃ r, post = Except.ok r ∧ r.statusCode ≠ 200)

/-! Bridge lemmas relating the observable outcome to the decode loop. -/

@[simp]
theorem query_err_outcome (prompt e : String) :
    queryOllamaStreaming prompt (Except.error e) =
      { request := { model := modelName, prompt := prompt, stream := true },
        delivered := [], err := some e, bodyClosed := false, bodyRest := [] } := rfl

@[simp]
theorem query_ok_delivered (prompt : String) (r : HttpResponse) :
    (queryOllamaStreaming prompt (Except.ok r)).delivered = (decodeLoop r.body).1 := rfl

@[simp]
theorem query_ok_err (prompt : String) (r : HttpResponse) :
    (queryOllamaStreaming prompt (Except.ok r)).err = (decodeLoop r.body).2.1 := rfl

@[simp]
theorem query_ok_bodyRest (prompt : String) (r : HttpResponse) :
    (queryOllamaStreaming prompt (Except.ok r)).bodyRest = (decodeLoop r.body).2.2 := rfl

@[simp]
theorem query_ok_bodyClosed (prompt : String) (r : HttpResponse) :
    (queryOllamaStreaming prompt (Except.ok r)).bodyClosed = true := rfl

theorem handlePrompt_err (prompt e : String) :
    handlePrompt prompt (Except.error e) =
      [OutFrame.response_start, OutFrame.response_chunk errorMessage,
        OutFrame.response_end] := rfl

theorem handlePrompt_ok (prompt : String) (r : HttpResponse) :
    handlePrompt prompt (Except.ok r) =
      OutFrame.response_start ::
        (decodeLoop r.body).1.map (fun cd => frameOfCallback cd.1 cd.2) ++
          (match (decodeLoop r.body).2.1 with
           | some _ => [OutFrame.response_chunk errorMessage, OutFrame.response_end]
           | none => []) := rfl

/-! Lemmas about the decode loop. -/

/-- When the loop exits with an error, no delivered fragment was final:
a done=true fragment breaks the loop with a nil error before any decode can
fail. -/
theorem decodeLoop_err_no_done (b : BodyStream) (h : (decodeLoop b).2.1.isSome = true) :
    ∀ cd ∈ (decodeLoop b).1, cd.2 = false := by
  induction b with
  | nil => simp [decodeLoop] at h
  | cons x rest ih =>
    cases x with
    | error e => simp [decodeLoop]
    | ok sr =>
      by_cases hd : sr.done
      · simp [decodeLoop, hd] at h
      · have hd' : sr.done = false := by simpa using hd
        simp only [decodeLoop, if_neg hd] at h ⊢
        intro cd hcd
        rcases List.mem_cons.mp hcd with hcd | hcd
        · simp [hcd, hd']
        · exact ih h cd hcd

/-- When the body stream is exhausted without a done=true object, the loop
returns a nil error, delivers one non-final fragment per object, and reads
the whole body. -/
theorem decodeLoop_exhaust (b : BodyStream) (h : exhaustsWithoutDone b = true) :
    (decodeLoop b).2.1 = none ∧ (∀ cd ∈ (decodeLoop b).1, cd.2 = false) ∧
      (decodeLoop b).2.2 = [] := by
  induction b with
  | nil => simp [decodeLoop]
  | cons x rest ih =>
    cases x with
    | error e => simp [exhaustsWithoutDone] at h
    | ok sr =>
      simp only [exhaustsWithoutDone, Bool.and_eq_true, Bool.not_eq_true'] at h
      obtain ⟨hd, hrest⟩ := h
      obtain ⟨ih1, ih2, ih3⟩ := ih hrest
      refine ⟨?_, ?_, ?_⟩
      · simpa [decodeLoop, hd] using ih1
      · simp only [decodeLoop, hd, Bool.false_eq_true, if_false]
        intro cd hcd
        rcases List.mem_cons.mp hcd with hcd | hcd
        · simp [hcd, hd]
        · exact ih2 cd hcd
      · simpa [decodeLoop, hd] using ih3

/-- When the body stream terminates (done object or decode error reached),
the loop either returns an error, or returns nil with the delivered
fragments being zero or more non-final ones followed by exactly one final
one. -/
theorem decodeLoop_term (b : BodyStream) (h : bodyTerminates b = true) :
    (decodeLoop b).2.1.isSome = true ∨
      ((decodeLoop b).2.1 = none ∧
        ∃ d t, (decodeLoop b).1 = d ++ [(t, true)] ∧ ∀ cd ∈ d, cd.2 = false) := by
  induction b with
  | nil => simp [bodyTerminates] at h
  | cons x rest ih =>
    cases x with
    | error e => simp [decodeLoop]
    | ok sr =>
      by_cases hd : sr.done
      · right
        refine ⟨by simp [decodeLoop, hd], [], sr.response, by simp [decodeLoop, hd], by simp⟩
      · simp only [bodyTerminates, Bool.or_eq_true] at h
        rcases h with h | h
        · exact absurd h hd
        rcases ih h with herr | ⟨hnone, d, t, hdel, hnd⟩
        · left
          simpa [decodeLoop, hd] using herr
        · right
          refine ⟨by simpa [decodeLoop, hd] using hnone,
            (sr.response, sr.done) :: d, t, ?_, ?_⟩
          · simp [decodeLoop, hd, hdel]
          · have hd' : sr.done = false := by simpa using hd
            intro cd hcd
            rcases List.mem_cons.mp hcd with hcd | hcd
            · simp [hcd, hd']
            · exact hnd cd hcd

/-- A delivered list of exclusively non-final fragments is written out as
response_chunk frames of their texts. -/
theorem map_frameOfCallback_chunks (d : List (String × Bool))
    (h : ∀ cd ∈ d, cd.2 = false) :
    d.map (fun cd => frameOfCallback cd.1 cd.2) =
      d.map (fun cd => OutFrame.response_chunk cd.1) := by
  induction d with
  | nil => rfl
  | cons cd d ih =>
    have h1 : cd.2 = false := h cd (List.mem_cons_self cd d)
    have h2 : ∀ x ∈ d, x.2 = false := fun x hx => h x (List.mem_cons_of_mem cd hx)
    simp only [List.map_cons, ih h2]
    simp [frameOfCallback, h1]

/-- Prepending chunk frames does not change whether a frame list is a valid
bracketing tail. -/
theorem isBracketedTail_chunks_append (d : List (String × Bool)) (fs : List OutFrame) :
    isBracketedTail (d.map (fun cd => OutFrame.response_chunk cd.1) ++ fs) =
      isBracketedTail fs := by
  induction d with
  | nil => rfl
  | cons cd d ih => simpa [isBracketedTail] using ih

@[simp]
theorem isBracketed_start_cons (rest : List OutFrame) :
    isBracketed (OutFrame.response_start :: rest) = isBracketedTail rest := rfl

theorem handlePrompt_ok_of_err (prompt : String) (r : HttpResponse) (e : String)
    (he : (decodeLoop r.body).2.1 = some e) :
    handlePrompt prompt (Except.ok r) =
      OutFrame.response_start ::
        (decodeLoop r.body).1.map (fun cd => frameOfCallback cd.1 cd.2) ++
          [OutFrame.response_chunk errorMessage, OutFrame.response_end] := by
  rw [handlePrompt_ok, he]

theorem handlePrompt_ok_of_none (prompt : String) (r : HttpResponse)
    (hn : (decodeLoop r.body).2.1 = none) :
    handlePrompt prompt (Except.ok r) =
      OutFrame.response_start ::
        (decodeLoop r.body).1.map (fun cd => frameOfCallback cd.1 cd.2) := by
  rw [handlePrompt_ok, hn]
  simp

/-- The decode loop on a body of non-final objects followed by a final one:
every fragment up to and including the final one is delivered in order, the
error is nil, and everything after the final object is left unread. -/
theorem decodeLoop_pre_done (pre : List OllamaStreamResponse)
    (hpre : ∀ f ∈ pre, f.done = false) (fin : OllamaStreamResponse)
    (hfin : fin.done = true) (rest : BodyStream) :
    decodeLoop (pre.map Except.ok ++ Except.ok fin :: rest) =
      (pre.map (fun f => (f.response, f.done)) ++ [(fin.response, fin.done)],
        none, rest) := by
  induction pre with
  | nil => simp [decodeLoop, hfin]
  | cons f pre ih =>
    have h1 : f.done = false := hpre f (List.mem_cons_self f pre)
    have h2 : ∀ x ∈ pre, x.done = false := fun x hx => hpre x (List.mem_cons_of_mem f hx)
    simp [decodeLoop, h1, ih h2]

/-- Writing out fragments of non-final objects yields their chunk frames. -/
theorem map_pre_chunks (pre : List OllamaStreamResponse)
    (hpre : ∀ f ∈ pre, f.done = false) :
    (pre.map (fun f => (f.response, f.done))).map (fun cd => frameOfCallback cd.1 cd.2) =
      pre.map (fun f => OutFrame.response_chunk f.response) := by
  induction pre with
  | nil => rfl
  | cons f pre ih =>
    have h1 : f.done = false := hpre f (List.mem_cons_self f pre)
    have h2 : ∀ x ∈ pre, x.done = false := fun x hx => hpre x (List.mem_cons_of_mem f hx)
    simp only [List.map_cons]
    rw [ih h2]
    simp [frameOfCallback, h1]

/-! Claim theorems. -/

/-- C2, as stated, is false on the code: queryOllamaStreaming never inspects
the HTTP status code, so a non-success status is not an open failure.  At
prompt "" with a 500 response whose body decodes to one object, the call
returns a nil error and the callback was invoked once. -/
theorem C2_counterexample :
    ¬ ∀ (prompt : String) (post : PostResult), openFailurePerSpec post →
        (queryOllamaStreaming prompt post).err.isSome = true ∧
        (queryOllamaStreaming prompt post).delivered = [] := by
  intro hall
  have h := hall "" (Except.ok ⟨500, [Except.ok ⟨"oops", false⟩]⟩)
    (Or.inr ⟨⟨500, [Except.ok ⟨"oops", false⟩]⟩, rfl, by decide⟩)
  exact absurd h.1 (by decide)

/-- C2 (amended): if the backend request fails to open at the transport
level (connection refused, DNS failure), queryOllamaStreaming returns that
error immediately and the per-fragment callback is never invoked; a
non-success HTTP status is not detected as an open failure — the response
is processed exactly as a success with the same body, since the status code
never influences the outcome. -/
theorem C2_thm (prompt e : String) :
    (queryOllamaStreaming prompt (Except.error e)).err = some e ∧
    (queryOllamaStreaming prompt (Except.error e)).delivered = [] ∧
    ∀ (st₁ st₂ : Nat) (b : BodyStream),
      queryOllamaStreaming prompt (Except.ok ⟨st₁, b⟩) =
        queryOllamaStreaming prompt (Except.ok ⟨st₂, b⟩) :=
  ⟨rfl, rfl, fun _ _ _ => rfl⟩

/-- C6: decoding the backend stream whose objects are
(response "A", done false) then (response "B", done true) delivers exactly
the two fragments in that order with a nil error, and stops at the second
object: whatever follows the done=true object is never read. -/
theorem C6_thm (prompt : String) (st : Nat) (rest : BodyStream) :
    (queryOllamaStreaming prompt
        (Except.ok ⟨st, Except.ok ⟨"A", false⟩ :: Except.ok ⟨"B", true⟩ :: rest⟩)).delivered
      = [("A", false), ("B", true)] ∧
    (queryOllamaStreaming prompt
        (Except.ok ⟨st, Except.ok ⟨"A", false⟩ :: Except.ok ⟨"B", true⟩ :: rest⟩)).err
      = none ∧
    (queryOllamaStreaming prompt
        (Except.ok ⟨st, Except.ok ⟨"A", false⟩ :: Except.ok ⟨"B", true⟩ :: rest⟩)).bodyRest
      = rest :=
  ⟨rfl, rfl, rfl⟩

/-- C7: an inbound frame whose "type" value is anything other than the
string "message" (unknown string, number, absent, ...) produces no outbound
frames and no backend call, and the session continues with the remaining
events and the same backend call counter. -/
theorem C7_thm (t c : Option JVal) (h : t ≠ some (JVal.str "message"))
    (backend : Nat → PostResult) (evs : List InEvent) (k : Nat) :
    sessionLoop backend (InEvent.frame t c :: evs) k = sessionLoop backend evs k := by
  simp [sessionLoop, h]

/-- Witness for C7 at a concrete non-"message" frame: the frame is skipped
and the following prompt is processed as if the frame were not there. -/
theorem C7_witness :
    sessionLoop (fun _ => Except.error "backend down")
        [InEvent.frame (some (JVal.num 7)) none,
          InEvent.frame (some (JVal.str "message")) (some (JVal.str "hi"))] 0 =
      sessionLoop (fun _ => Except.error "backend down")
        [InEvent.frame (some (JVal.str "message")) (some (JVal.str "hi"))] 0 :=
  C7_thm (some (JVal.num 7)) none (by decide) (fun _ => Except.error "backend down")
    [InEvent.frame (some (JVal.str "message")) (some (JVal.str "hi"))] 0

/-- C8: a ReadJSON failure breaks the read loop immediately: no outbound
frame is written for the malformed frame (or ever after), no backend call is
made even if further events were pending, and the deferred conn.Close()
closes the connection. -/
theorem C8_thm (backend : Nat → PostResult) (e : String) (evs : List InEvent) (k : Nat) :
    sessionLoop backend (InEvent.readFailure e :: evs) k = ([], []) ∧
    handleWebSocket backend (InEvent.readFailure e :: evs) =
      { out := [], prompts := [], connClosed := true } :=
  ⟨rfl, rfl⟩

/-- C9: a "message" frame whose "content" is absent or not a string runs
the full prompt-handling sequence with the empty-string prompt: the frames
of handlePrompt "" are written and "" is the prompt passed to the backend
call, after which the loop continues normally. -/
theorem C9_thm (c : Option JVal) (h : ∀ s, c ≠ some (JVal.str s))
    (backend : Nat → PostResult) (evs : List InEvent) (k : Nat) :
    sessionLoop backend (InEvent.frame (some (JVal.str "message")) c :: evs) k =
      (handlePrompt "" (backend k) ++ (sessionLoop backend evs (k + 1)).1,
        "" :: (sessionLoop backend evs (k + 1)).2) := by
  have hc : extractContent c = "" := by
    cases c with
    | none => rfl
    | some v =>
      cases v with
      | str s => exact absurd rfl (h s)
      | num n => rfl
      | boolean b => rfl
      | null => rfl
  simp [sessionLoop, hc]

/-- Witness for C9: a "message" frame with no "content" key dispatches the
prompt-handling sequence on the empty prompt. -/
theorem C9_witness :
    sessionLoop (fun _ => Except.error "backend down")
        [InEvent.frame (some (JVal.str "message")) none] 0 =
      (handlePrompt "" (Except.error "backend down") ++
          (sessionLoop (fun _ => Except.error "backend down") [] 1).1,
        "" :: (sessionLoop (fun _ => Except.error "backend down") [] 1).2) :=
  C9_thm none (fun _ h => Option.noConfusion h)
    (fun _ => Except.error "backend down") [] 0

/-- C10: on every exit path of a call whose http.Post succeeded — early
break on done=true, body exhaustion, or mid-stream decode error — the
deferred resp.Body.Close() has run by the time queryOllamaStreaming
returns, for every possible body stream. -/
theorem C10_thm (prompt : String) (r : HttpResponse) :
    (queryOllamaStreaming prompt (Except.ok r)).bodyClosed = true := rfl

/-- C1, as stated, is false on the code: when the backend body is exhausted
without a done=true object, no response_end is written.  Dispatching the
prompt "hi" against a backend whose body is the single non-final object
(response "A", done false) makes the session write exactly response_start
then chunk "A" — a sequence that does not end with response_end. -/
theorem C1_counterexample :
    (sessionLoop (fun _ => Except.ok ⟨200, [Except.ok ⟨"A", false⟩]⟩)
        [InEvent.frame (some (JVal.str "message")) (some (JVal.str "hi"))] 0).1
      = [OutFrame.response_start, OutFrame.response_chunk "A"] ∧
    isBracketed [OutFrame.response_start, OutFrame.response_chunk "A"] = false := by
  decide

/-- C1 (amended): for every prompt whose backend call fails to open or whose
body stream terminates (reaches a done=true object or a decode error), the
outbound frames for that prompt are exactly one response_start, zero or more
response_chunk frames in backend order, and one response_end; and each
dispatched prompt's frames form a contiguous block in the session output,
so no two prompts' frames interleave.  When the body is exhausted without
done=true, the response_end is missing. -/
theorem C1_thm (prompt : String) (post : PostResult)
    (h : ∀ r, post = Except.ok r → bodyTerminates r.body = true) :
    isBracketed (handlePrompt prompt post) = true ∧
    ∀ (backend : Nat → PostResult) (evs : List InEvent) (k : Nat) (c : Option JVal),
      sessionLoop backend (InEvent.frame (some (JVal.str "message")) c :: evs) k =
        (handlePrompt (extractContent c) (backend k) ++ (sessionLoop backend evs (k + 1)).1,
          extractContent c :: (sessionLoop backend evs (k + 1)).2) := by
  constructor
  · cases post with
    | error e => rfl
    | ok r =>
      rcases decodeLoop_term r.body (h r rfl) with herr | ⟨hnone, d, t, hdel, hnd⟩
      · obtain ⟨e, he⟩ := Option.isSome_iff_exists.mp herr
        have hndel := decodeLoop_err_no_done r.body herr
        rw [handlePrompt_ok_of_err prompt r e he]
        simp only [List.cons_append]
        rw [isBracketed_start_cons, map_frameOfCallback_chunks _ hndel,
          isBracketedTail_chunks_append]
        rfl
      · rw [handlePrompt_ok_of_none prompt r hnone, isBracketed_start_cons, hdel]
        simp only [List.map_append]
        rw [map_frameOfCallback_chunks d hnd, isBracketedTail_chunks_append]
        simp [frameOfCallback, isBracketedTail]
  · intro backend evs k c
    simp [sessionLoop]

/-- Witness for C1 at a backend that fails to open: the prompt's outbound
sequence is bracketed. -/
theorem C1_witness :
    isBracketed (handlePrompt "" (Except.error "connection refused")) = true :=
  (C1_thm "" (Except.error "connection refused")
    (fun _ hr => Except.noConfusion hr)).1

/-- C3: when queryOllamaStreaming returns a non-nil error (open failure or
mid-stream decode failure), the prompt's outbound frames are response_start,
the chunks already forwarded (all fragments delivered before a failure are
non-final, and their texts are kept unchanged, in order), then exactly one
chunk with the fixed error text and exactly one response_end; and the read
loop continues: the next inbound events are processed normally. -/
theorem C3_thm (prompt : String) (post : PostResult)
    (h : (queryOllamaStreaming prompt post).err.isSome = true) :
    handlePrompt prompt post =
      OutFrame.response_start ::
        (queryOllamaStreaming prompt post).delivered.map
          (fun cd => OutFrame.response_chunk cd.1) ++
          [OutFrame.response_chunk errorMessage, OutFrame.response_end] ∧
    ∀ (backend : Nat → PostResult) (evs : List InEvent) (k : Nat) (c : Option JVal),
      sessionLoop backend (InEvent.frame (some (JVal.str "message")) c :: evs) k =
        (handlePrompt (extractContent c) (backend k) ++ (sessionLoop backend evs (k + 1)).1,
          extractContent c :: (sessionLoop backend evs (k + 1)).2) := by
  constructor
  · cases post with
    | error e => rfl
    | ok r =>
      have herr : (decodeLoop r.body).2.1.isSome = true := h
      obtain ⟨e, he⟩ := Option.isSome_iff_exists.mp herr
      have hndel := decodeLoop_err_no_done r.body herr
      rw [handlePrompt_ok_of_err prompt r e he, map_frameOfCallback_chunks _ hndel]
      rfl
  · intro backend evs k c
    simp [sessionLoop]

/-- Witness for C3 at a connection-refused open failure: the outbound
sequence is start, error chunk, end, and no fragment was forwarded. -/
theorem C3_witness :
    handlePrompt "hi" (Except.error "connection refused") =
      OutFrame.response_start ::
        (queryOllamaStreaming "hi" (Except.error "connection refused")).delivered.map
          (fun cd => OutFrame.response_chunk cd.1) ++
          [OutFrame.response_chunk errorMessage, OutFrame.response_end] :=
  (C3_thm "hi" (Except.error "connection refused") rfl).1

/-- C4: when the backend body is exhausted (every object decodes, none has
done=true), queryOllamaStreaming returns a nil error, and the prompt's
outbound frames are exactly response_start followed by the forwarded chunks:
no response_end and no error chunk is ever written for that prompt. -/
theorem C4_thm (prompt : String) (st : Nat) (b : BodyStream)
    (h : exhaustsWithoutDone b = true) :
    (queryOllamaStreaming prompt (Except.ok ⟨st, b⟩)).err = none ∧
    handlePrompt prompt (Except.ok ⟨st, b⟩) =
      OutFrame.response_start ::
        (queryOllamaStreaming prompt (Except.ok ⟨st, b⟩)).delivered.map
          (fun cd => OutFrame.response_chunk cd.1) ∧
    OutFrame.response_end ∉ handlePrompt prompt (Except.ok ⟨st, b⟩) := by
  obtain ⟨hnone, hnd, hrest⟩ := decodeLoop_exhaust b h
  have hframes : handlePrompt prompt (Except.ok ⟨st, b⟩) =
      OutFrame.response_start ::
        (queryOllamaStreaming prompt (Except.ok ⟨st, b⟩)).delivered.map
          (fun cd => OutFrame.response_chunk cd.1) := by
    rw [handlePrompt_ok_of_none prompt ⟨st, b⟩ hnone, map_frameOfCallback_chunks _ hnd]
    rfl
  refine ⟨hnone, hframes, ?_⟩
  rw [hframes]
  simp

/-- Witness for C4 at the one-object non-final body: the call reports
success. -/
theorem C4_witness :
    exhaustsWithoutDone [Except.ok ⟨"A", false⟩] = true ∧
    (queryOllamaStreaming "p" (Except.ok ⟨200, [Except.ok ⟨"A", false⟩]⟩)).err = none :=
  ⟨by decide, (C4_thm "p" 200 [Except.ok ⟨"A", false⟩] (by decide)).1⟩

/-- C5: for a backend stream of non-final fragments followed by a final
done=true fragment, the prompt's outbound frames are response_start, one
chunk per non-final fragment's text in order, then response_end: the final
fragment's own text never appears as a chunk (the output does not depend on
it at all). -/
theorem C5_thm (prompt : String) (st : Nat) (pre : List OllamaStreamResponse)
    (hpre : ∀ f ∈ pre, f.done = false) (fin : OllamaStreamResponse)
    (hfin : fin.done = true) (rest : BodyStream) :
    handlePrompt prompt (Except.ok ⟨st, pre.map Except.ok ++ Except.ok fin :: rest⟩) =
      OutFrame.response_start ::
        pre.map (fun f => OutFrame.response_chunk f.response) ++
          [OutFrame.response_end] := by
  have hd := decodeLoop_pre_done pre hpre fin hfin rest
  have hb : (⟨st, pre.map Except.ok ++ Except.ok fin :: rest⟩ : HttpResponse).body =
      pre.map Except.ok ++ Except.ok fin :: rest := rfl
  rw [handlePrompt_ok, hb, hd]
  simp only [List.map_append, map_pre_chunks pre hpre, List.map_cons, List.map_nil]
  simp [frameOfCallback, hfin]

/-- Witness for C5 at the spec's example stream ["Hel","lo"] then done with
empty text: the client receives start, chunk "Hel", chunk "lo", end and
nothing else. -/
theorem C5_witness :
    handlePrompt "p" (Except.ok ⟨200, [Except.ok ⟨"Hel", false⟩, Except.ok ⟨"lo", false⟩,
        Except.ok ⟨"", true⟩]⟩) =
      [OutFrame.response_start, OutFrame.response_chunk "Hel", OutFrame.response_chunk "lo",
        OutFrame.response_end] :=
  C5_thm "p" 200 [⟨"Hel", false⟩, ⟨"lo", false⟩] (by decide) ⟨"", true⟩ rfl []

end Gollum
